import Mathlib

/-!
Shallow embedding of the QoS / traffic-control policy engine of
`framework/transport.py` (5G transport network control):
Rule Engine (`apply_tc_rules` / `clear_tc_rules`), Conflict Resolver
(`auto_configure_qos`), and Priority Arbiter (`apply_priority_rules` /
`clear_priority_rules`), together with the static Profile, Slice and
Preset catalogs.

External effects (`docker exec` shell-outs issuing `tc` commands) are
modelled as a list of issued `Call`s, with success of each command
decided by an oracle `ok : String → String → Bool` (container, command).
Python dicts are modelled as association lists with insertion-order
preserving update semantics.
-/

set_option maxRecDepth 10000

namespace Transport

/-- Lookup in a python-dict modelled as an association list
(first key occurrence wins; dicts built here never duplicate keys). -/
def dictGet {α : Type} (k : String) : List (String × α) → Option α
  | [] => none
  | (k', v) :: rest => if k' = k then some v else dictGet k rest

/-- Python `d[k] = v`: replace in place when the key exists (position
preserved), otherwise append at the end (dict insertion order). -/
def dictPut {α : Type} (k : String) (v : α) : List (String × α) → List (String × α)
  | [] => [(k, v)]
  | (k', v') :: rest => if k' = k then (k, v) :: rest else (k', v') :: dictPut k v rest

/-- Python `del d[k]` on a dict with unique keys: drop the entry. -/
def dictDel {α : Type} (k : String) (d : List (String × α)) : List (String × α) :=
  d.filter (fun p => p.1 ≠ k)

/-- Accumulating decimal parser over characters; fails on a non-digit. -/
def decDigits : List Char → Nat → Option Nat
  | [], acc => some acc
  | c :: cs, acc =>
    if '0' ≤ c ∧ c ≤ '9' then decDigits cs (acc * 10 + (c.toNat - 48)) else none

/-- Numeric value of a non-empty digit string scaled by a unit. -/
def rateDigitsKbit (cs : List Char) (unit : Nat) : Option Nat :=
  match cs with
  | [] => none
  | _ => (decDigits cs 0).map (fun n => n * unit)

/-- Rate expression in kbit/s: parses the `tc` rate strings used by the
repository ("100mbit", "512kbit", ...). -/
def rateKbit (s : String) : Option Nat :=
  let cs := s.data
  if cs.drop (cs.length - 4) = ['m', 'b', 'i', 't'] ∧ 4 ≤ cs.length then
    rateDigitsKbit (cs.take (cs.length - 4)) 1000
  else if cs.drop (cs.length - 4) = ['k', 'b', 'i', 't'] ∧ 4 ≤ cs.length then
    rateDigitsKbit (cs.take (cs.length - 4)) 1
  else none

/-- Decidable "rate a ≤ rate b" on rate strings, false when either fails
to parse. -/
def rateLe (a b : String) : Bool :=
  match rateKbit a, rateKbit b with
  | some x, some y => x ≤ y
  | _, _ => false

/-! ## Profile catalog (`QOS_PROFILES`) -/

structure QosProfile where
  name : String
  description : String
  bandwidth_down : String
  bandwidth_up : String
  latency_ms : Nat
  jitter_ms : Nat
  loss_pct : Nat
  priority : Nat
deriving DecidableEq

/-- `QOS_PROFILES` from transport.py, values verbatim. -/
def QOS_PROFILES : List (String × QosProfile) :=
  [ ("iot-default",
      { name := "IoT Default"
        description := "Low bandwidth, tolerant latency — typical sensor data"
        bandwidth_down := "5mbit", bandwidth_up := "2mbit"
        latency_ms := 50, jitter_ms := 10, loss_pct := 0, priority := 3 })
  , ("vehicle-default",
      { name := "Vehicle / URLLC"
        description := "High bandwidth, ultra-low latency — safety-critical"
        bandwidth_down := "50mbit", bandwidth_up := "25mbit"
        latency_ms := 5, jitter_ms := 2, loss_pct := 0, priority := 1 })
  , ("restricted-default",
      { name := "Restricted Internal"
        description := "Limited bandwidth, internal only — no internet access"
        bandwidth_down := "2mbit", bandwidth_up := "1mbit"
        latency_ms := 20, jitter_ms := 5, loss_pct := 0, priority := 4 })
  , ("embb",
      { name := "Enhanced Mobile Broadband"
        description := "Maximum bandwidth for data-heavy applications"
        bandwidth_down := "100mbit", bandwidth_up := "50mbit"
        latency_ms := 10, jitter_ms := 3, loss_pct := 0, priority := 2 })
  , ("emergency",
      { name := "Emergency / Mission-Critical"
        description := "Highest priority, guaranteed bandwidth, minimal latency"
        bandwidth_down := "30mbit", bandwidth_up := "15mbit"
        latency_ms := 2, jitter_ms := 1, loss_pct := 0, priority := 0 })
  , ("degraded",
      { name := "Degraded Network Simulation"
        description := "Simulate poor network conditions for testing"
        bandwidth_down := "1mbit", bandwidth_up := "512kbit"
        latency_ms := 200, jitter_ms := 50, loss_pct := 5, priority := 5 })
  ]

/-! ## Slice endpoint registry (`SLICE_MAP`) -/

structure SliceCfg where
  upf : String
  upf_iface : String
  subnet : String
  ue : String
  ue_iface : String
  ue_tun : String
deriving DecidableEq

/-- `SLICE_MAP` from transport.py. -/
def SLICE_MAP : List (String × SliceCfg) :=
  [ ("slice1", { upf := "upf1", upf_iface := "ogstun", subnet := "10.45.0.0/16"
                 ue := "ue1", ue_iface := "eth0", ue_tun := "uesimtun0" })
  , ("slice2", { upf := "upf2", upf_iface := "ogstun", subnet := "10.46.0.0/16"
                 ue := "ue2", ue_iface := "eth0", ue_tun := "uesimtun0" })
  , ("slice3", { upf := "upf3", upf_iface := "ogstun", subnet := "10.47.0.0/16"
                 ue := "ue3", ue_iface := "eth0", ue_tun := "uesimtun0" })
  ]

/-! ## Parameter resolution (`apply_tc_rules`, lines 160-175) -/

/-- The QoS fields of the `params` dict manipulated by `apply_tc_rules`
(the cosmetic `name`/`description` entries of a copied profile are not
modelled; no rule command reads them). -/
structure TcParams where
  bandwidth_down : String
  bandwidth_up : String
  latency_ms : Nat
  jitter_ms : Nat
  loss_pct : Nat
  priority : Nat
deriving DecidableEq

/-- The keyword arguments of `apply_tc_rules` other than slice and
profile id; `none` is python `None` (argument not supplied). -/
structure Overrides where
  bandwidth_down : Option String := none
  bandwidth_up : Option String := none
  latency_ms : Option Nat := none
  jitter_ms : Option Nat := none
  loss_pct : Option Nat := none
deriving DecidableEq

def noOverrides : Overrides := {}

/-- The hard-coded fallback dict of `apply_tc_rules` (used when no
profile id is given or the given one is not in `QOS_PROFILES`). -/
def neutralDefaults : TcParams :=
  { bandwidth_down := "100mbit", bandwidth_up := "50mbit"
    latency_ms := 0, jitter_ms := 0, loss_pct := 0, priority := 2 }

def paramsOfProfile (p : QosProfile) : TcParams :=
  { bandwidth_down := p.bandwidth_down, bandwidth_up := p.bandwidth_up
    latency_ms := p.latency_ms, jitter_ms := p.jitter_ms
    loss_pct := p.loss_pct, priority := p.priority }

/-- Lines 160-168: profile defaults or the neutral fallback. A python
falsy profile id (`None` or `""`) or an id not in the catalog both take
the fallback branch. -/
def baseParams (profile_id : Option String) : TcParams :=
  match profile_id with
  | some pid =>
    match dictGet pid QOS_PROFILES with
    | some p => paramsOfProfile p
    | none => neutralDefaults
  | none => neutralDefaults

/-- Lines 170-175: custom values override field by field. The two
bandwidth arguments are tested for python truthiness (`if bandwidth_down:`),
so a supplied empty string is ignored; the numeric arguments are tested
with `is not None`, so a supplied 0 does override. -/
def applyOverrides (o : Overrides) (p : TcParams) : TcParams :=
  { bandwidth_down :=
      match o.bandwidth_down with
      | some s => if s ≠ "" then s else p.bandwidth_down
      | none => p.bandwidth_down
    bandwidth_up :=
      match o.bandwidth_up with
      | some s => if s ≠ "" then s else p.bandwidth_up
      | none => p.bandwidth_up
    latency_ms := (o.latency_ms).getD p.latency_ms
    jitter_ms := (o.jitter_ms).getD p.jitter_ms
    loss_pct := (o.loss_pct).getD p.loss_pct
    priority := p.priority }

def resolveParams (profile_id : Option String) (o : Overrides) : TcParams :=
  applyOverrides o (baseParams profile_id)

/-! ## Rule Engine (`clear_tc_rules` / `apply_tc_rules`) -/

/-- One external `docker exec container sh -c cmd` shell-out. -/
structure Call where
  container : String
  cmd : String
deriving DecidableEq

/-- Success oracle for the external device-configuration capability:
given container and command, whether the command succeeds. -/
def Oracle : Type := String → String → Bool

/-- Stderr oracle: the error text a failing command produces. -/
def ErrOracle : Type := String → String → String

/-- One entry of the `results` list of `apply_tc_rules`. -/
structure StepDetail where
  cmd : String
  success : Bool
  error : String
deriving DecidableEq

/-- The `_active_rules[slice_id]` record (line 246-253). -/
structure ActiveRule where
  slice_id : String
  profile_id : Option String
  upf : String
  ue : String
  params : TcParams
  applied_at : String
deriving DecidableEq

/-- The module-level `_active_rules` dict. -/
def Store : Type := List (String × ActiveRule)

/-- Result dict of `clear_tc_rules`. -/
structure ClearResult where
  success : Bool
  error : Option String := none
  message : Option String := none
deriving DecidableEq

/-- The four `tc qdisc del` commands of `clear_tc_rules` (lines 134-139),
as (container, command) pairs in issue order. -/
def clearCalls (smap : SliceCfg) : List Call :=
  [ { container := smap.upf
      cmd := "tc qdisc del dev " ++ smap.upf_iface ++ " root 2>/dev/null || true" }
  , { container := smap.ue
      cmd := "tc qdisc del dev " ++ smap.ue_iface ++ " root 2>/dev/null || true" }
  , { container := smap.ue
      cmd := "tc qdisc del dev " ++ smap.ue_iface ++ " ingress 2>/dev/null || true" }
  , { container := smap.ue
      cmd := "tc qdisc del dev " ++ smap.ue_tun ++ " root 2>/dev/null || true" } ]

/-- `clear_tc_rules(slice_id)`: returns (result, new store, issued calls).
The outcomes of the issued delete commands are ignored by the source
(`docker_exec` return values are dropped), so the result does not consult
the oracle. -/
def clear_tc_rules (slice_id : String) (store : Store) :
    ClearResult × Store × List Call :=
  match dictGet slice_id SLICE_MAP with
  | none => ({ success := false, error := some ("Unknown slice: " ++ slice_id) }, store, [])
  | some smap =>
    ( { success := true
        message := some ("Cleared tc rules on " ++ smap.upf ++ " and " ++ smap.ue) }
    , dictDel slice_id store
    , clearCalls smap )

/-- `netem_params` list (lines 191-197): delay (with jitter only nested
under a positive delay) and percentage loss. -/
def netem_params (p : TcParams) : List String :=
  (if p.latency_ms > 0 then
      ["delay " ++ toString p.latency_ms ++ "ms"]
        ++ (if p.jitter_ms > 0 then [toString p.jitter_ms ++ "ms"] else [])
    else [])
    ++ (if p.loss_pct > 0 then ["loss " ++ toString p.loss_pct ++ "%"] else [])

/-- `cmds_ue_dl` (lines 202-205): ingress policer on the UE docker-facing
device at the resolved download rate. -/
def cmds_ue_dl (smap : SliceCfg) (p : TcParams) : List String :=
  [ "tc qdisc add dev " ++ smap.ue_iface ++ " handle ffff: ingress"
  , "tc filter add dev " ++ smap.ue_iface
      ++ " parent ffff: protocol ip u32 match u32 0 0 police rate "
      ++ p.bandwidth_down ++ " burst 256k drop flowid :1" ]

/-- The netem qdisc command stacked under the HTB leaf of a device. -/
def netemCmd (iface : String) (p : TcParams) : String :=
  "tc qdisc add dev " ++ iface ++ " parent 1:10 handle 10: netem "
    ++ String.intercalate " " (netem_params p)

/-- `cmds_ue_ul` (lines 212-217): HTB leaf at the upload rate on the UE
egress device, plus a netem child when `netem_params` is non-empty. -/
def cmds_ue_ul (smap : SliceCfg) (p : TcParams) : List String :=
  [ "tc qdisc add dev " ++ smap.ue_iface ++ " root handle 1: htb default 10"
  , "tc class add dev " ++ smap.ue_iface ++ " parent 1: classid 1:10 htb rate "
      ++ p.bandwidth_up ++ " ceil " ++ p.bandwidth_up ]
    ++ (if netem_params p ≠ [] then [netemCmd smap.ue_iface p] else [])

/-- `cmds_ue_tun` (lines 224-227): HTB leaf at the upload rate on the UE
tunnel device (no netem stage). -/
def cmds_ue_tun (smap : SliceCfg) (p : TcParams) : List String :=
  [ "tc qdisc add dev " ++ smap.ue_tun ++ " root handle 1: htb default 10"
  , "tc class add dev " ++ smap.ue_tun ++ " parent 1: classid 1:10 htb rate "
      ++ p.bandwidth_up ++ " ceil " ++ p.bandwidth_up ]

/-- `cmds_upf` (lines 234-239): HTB leaf at the download rate on the UPF
tunnel device, plus a netem child when `netem_params` is non-empty. -/
def cmds_upf (smap : SliceCfg) (p : TcParams) : List String :=
  [ "tc qdisc add dev " ++ smap.upf_iface ++ " root handle 1: htb default 10"
  , "tc class add dev " ++ smap.upf_iface ++ " parent 1: classid 1:10 htb rate "
      ++ p.bandwidth_down ++ " ceil " ++ p.bandwidth_down ]
    ++ (if netem_params p ≠ [] then [netemCmd smap.upf_iface p] else [])

/-- All configure steps of `apply_tc_rules` in issue order, as
(container, command) pairs (steps 2-4 of the source; the preceding clear
is separate). -/
def configureSteps (smap : SliceCfg) (p : TcParams) : List Call :=
  (cmds_ue_dl smap p).map (fun c => { container := smap.ue, cmd := c })
    ++ (cmds_ue_ul smap p).map (fun c => { container := smap.ue, cmd := c })
    ++ (cmds_ue_tun smap p).map (fun c => { container := smap.ue, cmd := c })
    ++ (cmds_upf smap p).map (fun c => { container := smap.upf, cmd := c })

/-- The `results.append({...})` entry for one executed step. -/
def stepDetail (ok : Oracle) (err : ErrOracle) (c : Call) : StepDetail :=
  { cmd := "[" ++ c.container ++ "] " ++ c.cmd
    success := ok c.container c.cmd
    error := if ok c.container c.cmd then "" else err c.container c.cmd }

/-- Return dict of `apply_tc_rules`. -/
structure ApplyResult where
  success : Bool
  error : Option String := none
  slice_id : Option String := none
  profile : Option String := none
  params : Option TcParams := none
  details : List StepDetail := []
  message : Option String := none
deriving DecidableEq

/-- `apply_tc_rules(slice_id, profile_id, ...)` (lines 147-264):
validates the slice id, resolves parameters, clears, runs every
configure step collecting per-step results, records the active rule,
and reports the conjunction of step successes. `now` stands for
`time.strftime(...)` at the call. Returns (result, new store, all
issued calls including the clear's). -/
def apply_tc_rules (ok : Oracle) (err : ErrOracle) (now : String)
    (slice_id : String) (profile_id : Option String) (o : Overrides)
    (store : Store) : ApplyResult × Store × List Call :=
  match dictGet slice_id SLICE_MAP with
  | none => ({ success := false, error := some ("Unknown slice: " ++ slice_id) }, store, [])
  | some smap =>
    let params := resolveParams profile_id o
    let (_, store1, calls1) := clear_tc_rules slice_id store
    let steps := configureSteps smap params
    let results := steps.map (stepDetail ok err)
    let rule : ActiveRule :=
      { slice_id := slice_id, profile_id := profile_id
        upf := smap.upf, ue := smap.ue, params := params, applied_at := now }
    let store2 := dictPut slice_id rule store1
    let all_ok := results.all (fun r => r.success)
    ( { success := all_ok
        slice_id := some slice_id
        profile := profile_id
        params := some params
        details := results
        message := some (if all_ok then
            "QoS applied to " ++ slice_id ++ ": ↓" ++ params.bandwidth_down
              ++ " ↑" ++ params.bandwidth_up ++ " latency="
              ++ toString params.latency_ms ++ "ms"
          else "Some rules failed to apply") }
    , store2
    , calls1 ++ steps )

/-! ## Conflict Resolver (`auto_configure_qos`) -/

/-- `USE_CASE_QOS_MAP` from transport.py: use case id → (slice, profile). -/
def USE_CASE_QOS_MAP : List (String × (String × String)) :=
  [ ("iot-environment", ("slice1", "iot-default"))
  , ("smart-city", ("slice1", "iot-default"))
  , ("ehealth", ("slice1", "iot-default"))
  , ("vehicle-gps", ("slice2", "vehicle-default"))
  , ("vehicle-alerts", ("slice2", "emergency"))
  , ("restricted-iot", ("slice3", "restricted-default"))
  ]

/-- `QOS_PROFILES.get(profile_id, {}).get("priority", 5)`. -/
def profPrio (pid : String) : Nat :=
  ((dictGet pid QOS_PROFILES).map (fun p => p.priority)).getD 5

/-- One iteration of the conflict-resolution loop (lines 386-401) on the
`slice_profiles` dict. -/
def sliceProfilesStep (acc : List (String × String)) (uc : String) :
    List (String × String) :=
  match dictGet uc USE_CASE_QOS_MAP with
  | none => acc
  | some (slice_id, profile_id) =>
    match dictGet slice_id acc with
    | some existing =>
      if profPrio profile_id < profPrio existing then
        dictPut slice_id profile_id acc
      else acc
    | none => dictPut slice_id profile_id acc

/-- The `slice_profiles` dict computed by `auto_configure_qos` before the
apply loop. -/
def sliceProfiles (use_case_ids : List String) : List (String × String) :=
  use_case_ids.foldl sliceProfilesStep []

/-- The candidate profiles a given slice receives from an input list, in
input order (the spec's "candidate profiles grouped by slice"). -/
def candidates (use_case_ids : List String) (slice_id : String) : List String :=
  use_case_ids.filterMap (fun uc =>
    match dictGet uc USE_CASE_QOS_MAP with
    | some (s, p) => if s = slice_id then some p else none
    | none => none)

/-- Selection kernel: keep the incumbent unless the newcomer has strictly
lower priority (mirrors the `<` comparison of line 398). -/
def selStep (o : Option String) (p : String) : Option String :=
  match o with
  | none => some p
  | some q => if profPrio p < profPrio q then some p else some q

/-- The winning profile among a candidate list. -/
def selectMin (cs : List String) : Option String := cs.foldl selStep none

/-- Return dict of `auto_configure_qos`. -/
structure AutoResult where
  success : Bool
  configured : List (String × ApplyResult)
  message : String
deriving DecidableEq

/-- The apply loop of `auto_configure_qos` (lines 404-406): one
`apply_tc_rules` per entry of `slice_profiles`, threading the store and
accumulating calls. -/
def autoApplyLoop (ok : Oracle) (err : ErrOracle) (now : String) :
    List (String × String) → Store → List (String × ApplyResult) × Store × List Call
  | [], store => ([], store, [])
  | (slice_id, profile_id) :: rest, store =>
    let (r, store1, cs) := apply_tc_rules ok err now slice_id (some profile_id) noOverrides store
    let (rs, store2, cs2) := autoApplyLoop ok err now rest store1
    ((slice_id, r) :: rs, store2, cs ++ cs2)

/-- `auto_configure_qos(use_case_ids)` (lines 377-412). -/
def auto_configure_qos (ok : Oracle) (err : ErrOracle) (now : String)
    (use_case_ids : List String) (store : Store) :
    AutoResult × Store × List Call :=
  let sps := sliceProfiles use_case_ids
  let (configured, store1, calls) := autoApplyLoop ok err now sps store
  ( { success := configured.all (fun r => r.2.success)
      configured := configured
      message := "Auto-configured QoS for " ++ toString configured.length ++ " slice(s)" }
  , store1, calls )

/-! ## Priority Arbiter (`apply_priority_rules` / `clear_priority_rules`) -/

/-- One entry of `PRIORITY_PRESETS`. -/
structure Preset where
  name : String
  description : String
  total_bw : String
  iot_rate : String
  iot_ceil : String
  iot_prio : Nat
  vehicle_rate : String
  vehicle_ceil : String
  vehicle_prio : Nat
deriving DecidableEq

/-- `PRIORITY_PRESETS` from transport.py, values verbatim. -/
def PRIORITY_PRESETS : List (String × Preset) :=
  [ ("iot-first",
      { name := "IoT Priority (Default)"
        description := "IoT gets guaranteed bandwidth; Vehicle gets remainder"
        total_bw := "20mbit"
        iot_rate := "14mbit", iot_ceil := "18mbit", iot_prio := 1
        vehicle_rate := "4mbit", vehicle_ceil := "15mbit", vehicle_prio := 2 })
  , ("equal",
      { name := "Equal Share"
        description := "Both slices get equal bandwidth (baseline comparison)"
        total_bw := "20mbit"
        iot_rate := "10mbit", iot_ceil := "15mbit", iot_prio := 1
        vehicle_rate := "10mbit", vehicle_ceil := "15mbit", vehicle_prio := 1 })
  , ("vehicle-first",
      { name := "Vehicle Priority"
        description := "Vehicle gets priority (for comparison)"
        total_bw := "20mbit"
        iot_rate := "4mbit", iot_ceil := "15mbit", iot_prio := 2
        vehicle_rate := "14mbit", vehicle_ceil := "18mbit", vehicle_prio := 1 })
  , ("emergency",
      { name := "Emergency Override"
        description := "IoT gets near-total bandwidth (emergency scenario)"
        total_bw := "20mbit"
        iot_rate := "17mbit", iot_ceil := "19mbit", iot_prio := 0
        vehicle_rate := "1mbit", vehicle_ceil := "5mbit", vehicle_prio := 3 })
  ]

/-- The seven `tc` commands of `apply_priority_rules` (lines 547-561) on
the edge bottleneck device, in issue order. -/
def priorityCmds (preset : Preset) (ue1_ip ue2_ip : String) : List String :=
  [ "qdisc add dev eth0 root handle 1: htb default 30"
  , "class add dev eth0 parent 1: classid 1:1 htb rate " ++ preset.total_bw
      ++ " ceil " ++ preset.total_bw
  , "class add dev eth0 parent 1:1 classid 1:10 htb rate " ++ preset.iot_rate
      ++ " ceil " ++ preset.iot_ceil ++ " prio " ++ toString preset.iot_prio
  , "class add dev eth0 parent 1:1 classid 1:20 htb rate " ++ preset.vehicle_rate
      ++ " ceil " ++ preset.vehicle_ceil ++ " prio " ++ toString preset.vehicle_prio
  , "class add dev eth0 parent 1:1 classid 1:30 htb rate 2mbit ceil 5mbit prio 3"
  , "filter add dev eth0 parent 1: protocol ip u32 match ip dst " ++ ue1_ip
      ++ "/32 flowid 1:10"
  , "filter add dev eth0 parent 1: protocol ip u32 match ip dst " ++ ue2_ip
      ++ "/32 flowid 1:20" ]

/-- Observable state of the edge bottleneck link: the tc objects
(commands) successfully installed since the last root delete. `[]` is
the unshaped state. -/
abbrev EdgeState : Type := List String

/-- Arbiter bookkeeping: edge link state plus the `_priority_active`
flag. -/
structure ArbiterState where
  edge : EdgeState
  active : Bool
deriving DecidableEq

/-- Per-tc-command result entry produced by `_edge_tc_batch`. -/
structure EdgeStepResult where
  cmd : String
  success : Bool
deriving DecidableEq

/-- Result dict of `apply_priority_rules` (fields the claims touch). -/
structure PriorityResult where
  success : Bool
  error : Option String := none
  preset : Option String := none
  results : List EdgeStepResult := []
deriving DecidableEq

/-- `clear_priority_rules()` (lines 582-587): deletes the root qdisc on
the edge device (emptying the link's installed objects) and resets the
active flag; always succeeds. -/
def clear_priority_rules (_st : ArbiterState) : ClearResult × ArbiterState :=
  ( { success := true, message := some "Priority rules cleared from Edge" }
  , { edge := [], active := false } )

/-- `apply_priority_rules(preset_id)` (lines 523-579). `okCmd` decides
which tc commands the device accepts (a successful command installs its
object); `ue1_ip`/`ue2_ip` are the discovered UE addresses, `""` when
discovery failed. Unknown preset or failed discovery return an error
with the link untouched; otherwise the link is cleared and the preset's
commands are applied. -/
def apply_priority_rules (okCmd : String → Bool) (ue1_ip ue2_ip : String)
    (preset_id : String) (st : ArbiterState) : PriorityResult × ArbiterState :=
  match dictGet preset_id PRIORITY_PRESETS with
  | none => ({ success := false, error := some ("Unknown preset: " ++ preset_id) }, st)
  | some preset =>
    if ue1_ip = "" ∨ ue2_ip = "" then
      ({ success := false
         error := some ("Could not discover UE IPs: ue1=" ++ ue1_ip ++ ", ue2=" ++ ue2_ip) }, st)
    else
      let (_, st1) := clear_priority_rules st
      let cmds := priorityCmds preset ue1_ip ue2_ip
      let results := cmds.map (fun c => EdgeStepResult.mk ("tc " ++ c) (okCmd c))
      ( { success := results.all (fun r => r.success)
          preset := some preset_id
          results := results }
      , { edge := st1.edge ++ cmds.filter okCmd, active := true } )

/-- Rate/ceiling/priority of one HTB class as written by
`apply_priority_rules`; the parent class command carries no `prio`. -/
structure HtbClass where
  rate : String
  ceil : String
  prio : Option Nat
deriving DecidableEq

/-- The classes of the hierarchy `apply_priority_rules` builds from a
preset, in command order: parent (1:1), IoT (1:10), Vehicle (1:20),
default (1:30, hard-coded 2mbit/5mbit prio 3). -/
def presetClasses (p : Preset) : List HtbClass :=
  [ { rate := p.total_bw, ceil := p.total_bw, prio := none }
  , { rate := p.iot_rate, ceil := p.iot_ceil, prio := some p.iot_prio }
  , { rate := p.vehicle_rate, ceil := p.vehicle_ceil, prio := some p.vehicle_prio }
  , { rate := "2mbit", ceil := "5mbit", prio := some 3 } ]

/-- Oracle under which every external command succeeds. -/
def okAllOracle : Oracle := fun _ _ => true

/-- Oracle under which every external command fails. -/
def okNoneOracle : Oracle := fun _ _ => false

/-- Stderr oracle producing a fixed message. -/
def errFixed : ErrOracle := fun _ _ => "RTNETLINK answers: Operation not permitted"

/-! ## Dictionary lemmas -/

theorem dictGet_dictPut_self {α : Type} (k : String) (v : α) (d : List (String × α)) :
    dictGet k (dictPut k v d) = some v := by
  induction d with
  | nil => simp [dictPut, dictGet]
  | cons hd tl ih =>
    obtain ⟨k', v'⟩ := hd
    by_cases h : k' = k
    · simp [dictPut, dictGet, h]
    · simp [dictPut, dictGet, h, ih]

theorem dictGet_dictPut_ne {α : Type} (k k' : String) (v : α) (d : List (String × α))
    (h : k' ≠ k) : dictGet k' (dictPut k v d) = dictGet k' d := by
  induction d with
  | nil =>
    simp only [dictPut, dictGet]
    rw [if_neg (fun hc => h hc.symm)]
  | cons hd tl ih =>
    obtain ⟨k0, v0⟩ := hd
    by_cases h0 : k0 = k
    · subst h0
      simp only [dictPut, if_pos rfl, dictGet]
      rw [if_neg (fun hc => h hc.symm), if_neg (fun hc => h hc.symm)]
    · simp only [dictPut, if_neg h0]
      by_cases h1 : k0 = k'
      · simp [dictGet, h1]
      · simp [dictGet, h1, ih]

theorem dictGet_dictDel_self {α : Type} (k : String) (d : List (String × α)) :
    dictGet k (dictDel k d) = none := by
  induction d with
  | nil => simp [dictDel, dictGet]
  | cons hd tl ih =>
    obtain ⟨k', v'⟩ := hd
    by_cases h : k' = k
    · simpa [dictDel, dictGet, h] using ih
    · simpa [dictDel, dictGet, h] using ih

theorem mem_keys_dictPut {α : Type} (x k : String) (v : α) (d : List (String × α)) :
    x ∈ (dictPut k v d).map Prod.fst ↔ x ∈ d.map Prod.fst ∨ x = k := by
  induction d with
  | nil => simp [dictPut]
  | cons hd tl ih =>
    obtain ⟨k', v'⟩ := hd
    by_cases h : k' = k
    · subst h
      simp [dictPut]
      tauto
    · simp [dictPut, h, ih]
      tauto

theorem keys_nodup_dictPut {α : Type} (k : String) (v : α) (d : List (String × α))
    (h : (d.map Prod.fst).Nodup) : ((dictPut k v d).map Prod.fst).Nodup := by
  induction d with
  | nil => simp [dictPut]
  | cons hd tl ih =>
    obtain ⟨k', v'⟩ := hd
    simp only [List.map_cons, List.nodup_cons] at h
    by_cases hk : k' = k
    · subst hk
      simpa [dictPut, List.nodup_cons] using h
    · simp only [dictPut, if_neg hk, List.map_cons, List.nodup_cons]
      refine ⟨fun hc => ?_, ih h.2⟩
      rcases (mem_keys_dictPut k' k v tl).mp hc with h1 | h1
      · exact h.1 h1
      · exact hk h1

/-! ## Conflict-resolver lemmas -/

theorem dictGet_sliceProfilesStep (acc : List (String × String)) (u s : String) :
    dictGet s (sliceProfilesStep acc u) =
      match dictGet u USE_CASE_QOS_MAP with
      | none => dictGet s acc
      | some (sl, pid) =>
        if sl = s then selStep (dictGet s acc) pid else dictGet s acc := by
  cases hm : dictGet u USE_CASE_QOS_MAP with
  | none => simp [sliceProfilesStep, hm]
  | some sp =>
    obtain ⟨sl, pid⟩ := sp
    by_cases hs : sl = s
    · subst hs
      cases ha : dictGet sl acc with
      | none => simp [sliceProfilesStep, hm, ha, selStep, dictGet_dictPut_self]
      | some existing =>
        by_cases hlt : profPrio pid < profPrio existing
        · simp [sliceProfilesStep, hm, ha, selStep, hlt, dictGet_dictPut_self]
        · simp [sliceProfilesStep, hm, ha, selStep, hlt]
    · cases ha : dictGet sl acc with
      | none => simp [sliceProfilesStep, hm, ha, hs, dictGet_dictPut_ne sl s pid acc (fun hc => hs hc.symm)]
      | some existing =>
        by_cases hlt : profPrio pid < profPrio existing
        · simp [sliceProfilesStep, hm, ha, hs, hlt, dictGet_dictPut_ne sl s pid acc (fun hc => hs hc.symm)]
        · simp [sliceProfilesStep, hm, ha, hs, hlt]

theorem candidates_cons (u : String) (l : List String) (s : String) :
    candidates (u :: l) s =
      (match dictGet u USE_CASE_QOS_MAP with
       | none => candidates l s
       | some (sl, pid) => if sl = s then pid :: candidates l s else candidates l s) := by
  cases hm : dictGet u USE_CASE_QOS_MAP with
  | none => simp [candidates, hm]
  | some sp =>
    obtain ⟨sl, pid⟩ := sp
    by_cases hs : sl = s
    · simp [candidates, hm, hs]
    · simp [candidates, hm, hs]

theorem dictGet_foldl_sliceProfilesStep (l : List String) (acc : List (String × String))
    (s : String) :
    dictGet s (l.foldl sliceProfilesStep acc) =
      (candidates l s).foldl selStep (dictGet s acc) := by
  induction l generalizing acc with
  | nil => simp [candidates]
  | cons u l ih =>
    rw [List.foldl_cons, ih, candidates_cons]
    cases hm : dictGet u USE_CASE_QOS_MAP with
    | none => rw [dictGet_sliceProfilesStep, hm]
    | some sp =>
      obtain ⟨sl, pid⟩ := sp
      by_cases hs : sl = s
      · rw [dictGet_sliceProfilesStep, hm]
        simp [hs]
      · rw [dictGet_sliceProfilesStep, hm]
        simp [hs]

/-- The `slice_profiles` entry for a slice is the fold of `selStep` over
that slice's candidates in input order. -/
theorem dictGet_sliceProfiles (l : List String) (s : String) :
    dictGet s (sliceProfiles l) = selectMin (candidates l s) := by
  rw [sliceProfiles, dictGet_foldl_sliceProfilesStep]
  rfl

/-- The fold starting from an incumbent returns the first element of
incumbent-then-candidates attaining the minimum priority: strictly
smaller than everything before it, no larger than everything after. -/
theorem foldl_selStep_decomp (cs : List String) (b : String) :
    ∃ r l1 l2, cs.foldl selStep (some b) = some r ∧ b :: cs = l1 ++ r :: l2 ∧
      (∀ q ∈ l1, profPrio r < profPrio q) ∧ (∀ q ∈ l2, profPrio r ≤ profPrio q) := by
  induction cs generalizing b with
  | nil => exact ⟨b, [], [], rfl, rfl, by simp, by simp⟩
  | cons c cs ih =>
    by_cases hlt : profPrio c < profPrio b
    · obtain ⟨r, l1, l2, hf, hdec, hbefore, hafter⟩ := ih c
      refine ⟨r, b :: l1, l2, ?_, ?_, ?_, hafter⟩
      · simpa [selStep, hlt] using hf
      · simpa using congrArg (List.cons b) hdec
      · intro q hq
        rcases List.mem_cons.mp hq with hq | hq
        · subst hq
          have hrc : profPrio r ≤ profPrio c := by
            rcases l1 with _ | ⟨x, l1'⟩
            · simp only [List.nil_append, List.cons.injEq] at hdec
              exact le_of_eq (congrArg profPrio hdec.1.symm)
            · simp only [List.cons_append, List.cons.injEq] at hdec
              exact le_of_lt (hdec.1 ▸ hbefore x (List.mem_cons_self x l1'))
          exact lt_of_le_of_lt hrc hlt
        · exact hbefore q hq
    · obtain ⟨r, l1, l2, hf, hdec, hbefore, hafter⟩ := ih b
      rcases l1 with _ | ⟨x, l1'⟩
      · simp only [List.nil_append, List.cons.injEq] at hdec
        refine ⟨r, [], c :: l2, ?_, ?_, by simp, ?_⟩
        · simpa [selStep, hlt] using hf
        · simp [hdec.1, hdec.2]
        · intro q hq
          rcases List.mem_cons.mp hq with hq | hq
          · subst hq
            exact le_of_not_lt (hdec.1 ▸ hlt)
          · exact hafter q hq
      · simp only [List.cons_append, List.cons.injEq] at hdec
        refine ⟨r, b :: c :: l1', l2, ?_, ?_, ?_, hafter⟩
        · simpa [selStep, hlt] using hf
        · simp [hdec.2]
        · intro q hq
          have hrb : profPrio r < profPrio b :=
            hdec.1 ▸ hbefore x (List.mem_cons_self x l1')
          rcases List.mem_cons.mp hq with hq | hq
          · subst hq
            exact hrb
          rcases List.mem_cons.mp hq with hq | hq
          · subst hq
            exact lt_of_lt_of_le hrb (le_of_not_lt hlt)
          · exact hbefore q (hdec.1 ▸ List.mem_cons_of_mem x hq)

/-- `selectMin` on a non-empty list picks the first candidate attaining
the minimum priority. -/
theorem selectMin_decomp (cs : List String) (hne : cs ≠ []) :
    ∃ r l1 l2, selectMin cs = some r ∧ cs = l1 ++ r :: l2 ∧
      (∀ q ∈ l1, profPrio r < profPrio q) ∧ (∀ q ∈ l2, profPrio r ≤ profPrio q) := by
  cases cs with
  | nil => exact absurd rfl hne
  | cons c cs =>
    obtain ⟨r, l1, l2, hf, hdec, hbefore, hafter⟩ := foldl_selStep_decomp cs c
    exact ⟨r, l1, l2, hf, hdec, hbefore, hafter⟩

theorem selectMin_mem_min (cs : List String) (r : String) (h : selectMin cs = some r) :
    r ∈ cs ∧ ∀ q ∈ cs, profPrio r ≤ profPrio q := by
  have hne : cs ≠ [] := by
    intro hc
    subst hc
    simp [selectMin] at h
  obtain ⟨r', l1, l2, hf, hdec, hbefore, hafter⟩ := selectMin_decomp cs hne
  have hrr : r' = r := Option.some.inj (hf.symm.trans h)
  subst hrr
  constructor
  · rw [hdec]
    exact List.mem_append.mpr (Or.inr (List.mem_cons_self _ _))
  · intro q hq
    rw [hdec] at hq
    rcases List.mem_append.mp hq with hq | hq
    · exact le_of_lt (hbefore q hq)
    · rcases List.mem_cons.mp hq with hq | hq
      · exact le_of_eq (congrArg profPrio hq.symm)
      · exact hafter q hq

/-- Permutation invariance of the winner when candidate priorities tie
only between equal profile ids. -/
theorem selectMin_perm (cs1 cs2 : List String) (hp : cs1.Perm cs2)
    (ht : ∀ a ∈ cs1, ∀ b ∈ cs1, profPrio a = profPrio b → a = b) :
    selectMin cs1 = selectMin cs2 := by
  cases h1 : selectMin cs1 with
  | none =>
    cases h2 : selectMin cs2 with
    | none => rfl
    | some r2 =>
      obtain ⟨hm2, _⟩ := selectMin_mem_min cs2 r2 h2
      have : r2 ∈ cs1 := hp.mem_iff.mpr hm2
      rcases cs1 with _ | ⟨c, cs⟩
      · simp at this
      · obtain ⟨r, l1, l2, hf, _, _, _⟩ := foldl_selStep_decomp cs c
        rw [selectMin] at h1
        rw [List.foldl_cons] at h1
        have : selStep none c = some c := rfl
        rw [this] at h1
        rw [hf] at h1
        exact absurd h1 (by simp)
  | some r1 =>
    obtain ⟨hm1, hmin1⟩ := selectMin_mem_min cs1 r1 h1
    cases h2 : selectMin cs2 with
    | none =>
      have : r1 ∈ cs2 := hp.mem_iff.mp hm1
      rcases cs2 with _ | ⟨c, cs⟩
      · simp at this
      · obtain ⟨r, l1, l2, hf, _, _, _⟩ := foldl_selStep_decomp cs c
        rw [selectMin] at h2
        rw [List.foldl_cons] at h2
        have hsc : selStep none c = some c := rfl
        rw [hsc] at h2
        rw [hf] at h2
        exact absurd h2 (by simp)
    | some r2 =>
      obtain ⟨hm2, hmin2⟩ := selectMin_mem_min cs2 r2 h2
      have hm2' : r2 ∈ cs1 := hp.mem_iff.mpr hm2
      have hm1' : r1 ∈ cs2 := hp.mem_iff.mp hm1
      have hle1 : profPrio r1 ≤ profPrio r2 := hmin1 r2 hm2'
      have hle2 : profPrio r2 ≤ profPrio r1 := hmin2 r1 hm1'
      have : r1 = r2 := ht r1 hm1 r2 hm2' (le_antisymm hle1 hle2)
      rw [this]

theorem sliceProfiles_foldl_keys_nodup (l : List String) (acc : List (String × String))
    (h : (acc.map Prod.fst).Nodup) :
    ((l.foldl sliceProfilesStep acc).map Prod.fst).Nodup := by
  induction l generalizing acc with
  | nil => exact h
  | cons u l ih =>
    rw [List.foldl_cons]
    apply ih
    cases hm : dictGet u USE_CASE_QOS_MAP with
    | none => simpa [sliceProfilesStep, hm] using h
    | some sp =>
      obtain ⟨sl, pid⟩ := sp
      cases ha : dictGet sl acc with
      | none => simpa [sliceProfilesStep, hm, ha] using keys_nodup_dictPut sl pid acc h
      | some existing =>
        by_cases hlt : profPrio pid < profPrio existing
        · simpa [sliceProfilesStep, hm, ha, hlt] using keys_nodup_dictPut sl pid acc h
        · simpa [sliceProfilesStep, hm, ha, hlt] using h

/-- The keys of the `slice_profiles` dict are pairwise distinct. -/
theorem sliceProfiles_keys_nodup (l : List String) :
    ((sliceProfiles l).map Prod.fst).Nodup :=
  sliceProfiles_foldl_keys_nodup l [] (by simp)

/-- The apply loop produces exactly one result per `slice_profiles`
entry, keyed by that entry's slice. -/
theorem autoApplyLoop_keys (ok : Oracle) (err : ErrOracle) (now : String)
    (sps : List (String × String)) (store : Store) :
    ((autoApplyLoop ok err now sps store).1).map Prod.fst = sps.map Prod.fst := by
  induction sps generalizing store with
  | nil => rfl
  | cons e rest ih =>
    obtain ⟨slice_id, profile_id⟩ := e
    simp only [autoApplyLoop, List.map_cons]
    rw [ih]

/-! ## Claim theorems -/

/-- C1 (amended): an unknown slice_id is rejected with an error before any
external effect — no calls are issued and the store is untouched. A
supplied profile_id that is not in the catalog is, however, NOT rejected:
the engine silently falls back to the neutral defaults (plus overrides),
sets no error field, and proceeds to issue device-configuration calls. -/
theorem C1_unknown_identifier_handling :
    (∀ (ok : Oracle) (err : ErrOracle) (now s : String) (pid : Option String)
        (o : Overrides) (store : Store), dictGet s SLICE_MAP = none →
      (apply_tc_rules ok err now s pid o store).1.success = false ∧
      (apply_tc_rules ok err now s pid o store).1.error = some ("Unknown slice: " ++ s) ∧
      (apply_tc_rules ok err now s pid o store).2.1 = store ∧
      (apply_tc_rules ok err now s pid o store).2.2 = []) ∧
    (∀ (ok : Oracle) (err : ErrOracle) (now s : String) (smap : SliceCfg) (pid : String)
        (o : Overrides) (store : Store),
      dictGet s SLICE_MAP = some smap → dictGet pid QOS_PROFILES = none →
      (apply_tc_rules ok err now s (some pid) o store).1.error = none ∧
      (apply_tc_rules ok err now s (some pid) o store).1.params =
        some (applyOverrides o neutralDefaults) ∧
      (apply_tc_rules ok err now s (some pid) o store).2.2 ≠ []) := by
  constructor
  · intro ok err now s pid o store h
    simp [apply_tc_rules, h]
  · intro ok err now s smap pid o store hs hp
    simp [apply_tc_rules, hs, clear_tc_rules, resolveParams, baseParams, hp, clearCalls]

/-- C1 witness: concrete rejections and non-rejections via the theorem. -/
theorem C1_witness :
    (apply_tc_rules okAllOracle errFixed "t" "does-not-exist" (some "embb") noOverrides []).2.2 = [] ∧
    (apply_tc_rules okAllOracle errFixed "t" "does-not-exist" (some "embb") noOverrides []).1.error =
      some "Unknown slice: does-not-exist" ∧
    (apply_tc_rules okAllOracle errFixed "t" "slice1" (some "no-such-profile") noOverrides []).1.error = none := by
  have h1 := C1_unknown_identifier_handling.1 okAllOracle errFixed "t" "does-not-exist"
    (some "embb") noOverrides [] (by decide)
  have h2 := C1_unknown_identifier_handling.2 okAllOracle errFixed "t" "slice1"
    { upf := "upf1", upf_iface := "ogstun", subnet := "10.45.0.0/16"
      ue := "ue1", ue_iface := "eth0", ue_tun := "uesimtun0" }
    "no-such-profile" noOverrides [] (by decide) (by decide)
  exact ⟨h1.2.2.2, h1.2.1, h2.1⟩

/-- C1 counterexample: `apply("slice1", "no-such-profile")` does not
return an UnknownIdentifier error and does not produce zero endpoint
calls — it issues 12 device commands (4 clears + 8 configure steps) and
reports success. -/
theorem C1_counterexample :
    (apply_tc_rules okAllOracle errFixed "t" "slice1" (some "no-such-profile") noOverrides []).1.error = none ∧
    (apply_tc_rules okAllOracle errFixed "t" "slice1" (some "no-such-profile") noOverrides []).1.success = true ∧
    (apply_tc_rules okAllOracle errFixed "t" "slice1" (some "no-such-profile") noOverrides []).2.2.length = 12 := by
  refine ⟨rfl, rfl, rfl⟩

/-- C3: on a known slice, every configure step is executed whatever the
outcomes of the others (the details list is the pointwise image of the
complete step list under the per-step runner — no abort, no rollback),
the reported success is the conjunction of all per-step successes, and an
active rule carrying the resolved parameters and the timestamp is
recorded for the slice for every oracle, i.e. also when steps fail. -/
theorem C3_best_effort_and_recording :
    ∀ (ok : Oracle) (err : ErrOracle) (now s : String) (smap : SliceCfg)
      (pid : Option String) (o : Overrides) (store : Store),
      dictGet s SLICE_MAP = some smap →
      (apply_tc_rules ok err now s pid o store).1.details =
        (configureSteps smap (resolveParams pid o)).map (stepDetail ok err) ∧
      (apply_tc_rules ok err now s pid o store).1.details.length =
        (configureSteps smap (resolveParams pid o)).length ∧
      (apply_tc_rules ok err now s pid o store).1.success =
        ((apply_tc_rules ok err now s pid o store).1.details.all (fun r => r.success)) ∧
      (apply_tc_rules ok err now s pid o store).1.params = some (resolveParams pid o) ∧
      dictGet s (apply_tc_rules ok err now s pid o store).2.1 =
        some { slice_id := s, profile_id := pid, upf := smap.upf, ue := smap.ue
               params := resolveParams pid o, applied_at := now } := by
  intro ok err now s smap pid o store h
  refine ⟨?_, ?_, ?_, ?_, ?_⟩
  · simp [apply_tc_rules, h, clear_tc_rules]
  · simp [apply_tc_rules, h, clear_tc_rules]
  · simp [apply_tc_rules, h, clear_tc_rules]
  · simp [apply_tc_rules, h, clear_tc_rules]
  · simp [apply_tc_rules, h, clear_tc_rules, dictGet_dictPut_self]

/-- C3 witness: with an all-failing oracle on slice1, the engine still
reports the conjunction (false), keeps a full 10-step detail list for the
iot-default profile, and records the active rule. -/
theorem C3_witness :
    (apply_tc_rules okNoneOracle errFixed "t0" "slice1" (some "iot-default") noOverrides []).1.details.length = 10 ∧
    (apply_tc_rules okNoneOracle errFixed "t0" "slice1" (some "iot-default") noOverrides []).1.success = false ∧
    dictGet "slice1" (apply_tc_rules okNoneOracle errFixed "t0" "slice1" (some "iot-default") noOverrides []).2.1 =
      some { slice_id := "slice1", profile_id := some "iot-default", upf := "upf1", ue := "ue1"
             params := resolveParams (some "iot-default") noOverrides, applied_at := "t0" } := by
  have h := C3_best_effort_and_recording okNoneOracle errFixed "t0" "slice1"
    { upf := "upf1", upf_iface := "ogstun", subnet := "10.45.0.0/16"
      ue := "ue1", ue_iface := "eth0", ue_tun := "uesimtun0" }
    (some "iot-default") noOverrides [] (by decide)
  refine ⟨?_, ?_, h.2.2.2.2⟩
  · rw [h.2.1]
    rfl
  · rw [h.2.2.1]
    rfl

/-- C4 (amended): resolution over a cataloged profile is field-by-field.
Each numeric field (latency, jitter, loss) takes the supplied override
whenever one is given — including 0 — and the profile value otherwise.
Each bandwidth field takes a supplied override unless it is the empty
string (python truthiness test `if bandwidth_down:`), in which case the
profile value is kept. -/
theorem C4_override_precedence :
    ∀ (pid : String) (P : QosProfile) (o : Overrides),
      dictGet pid QOS_PROFILES = some P →
      ((o.bandwidth_down = none →
          (resolveParams (some pid) o).bandwidth_down = P.bandwidth_down) ∧
       (∀ v, o.bandwidth_down = some v → v ≠ "" →
          (resolveParams (some pid) o).bandwidth_down = v) ∧
       (o.bandwidth_down = some "" →
          (resolveParams (some pid) o).bandwidth_down = P.bandwidth_down)) ∧
      ((o.bandwidth_up = none →
          (resolveParams (some pid) o).bandwidth_up = P.bandwidth_up) ∧
       (∀ v, o.bandwidth_up = some v → v ≠ "" →
          (resolveParams (some pid) o).bandwidth_up = v) ∧
       (o.bandwidth_up = some "" →
          (resolveParams (some pid) o).bandwidth_up = P.bandwidth_up)) ∧
      ((o.latency_ms = none → (resolveParams (some pid) o).latency_ms = P.latency_ms) ∧
       (∀ n, o.latency_ms = some n → (resolveParams (some pid) o).latency_ms = n)) ∧
      ((o.jitter_ms = none → (resolveParams (some pid) o).jitter_ms = P.jitter_ms) ∧
       (∀ n, o.jitter_ms = some n → (resolveParams (some pid) o).jitter_ms = n)) ∧
      ((o.loss_pct = none → (resolveParams (some pid) o).loss_pct = P.loss_pct) ∧
       (∀ n, o.loss_pct = some n → (resolveParams (some pid) o).loss_pct = n)) := by
  intro pid P o h
  simp only [resolveParams, baseParams, h, applyOverrides, paramsOfProfile]
  refine ⟨⟨?_, ?_, ?_⟩, ⟨?_, ?_, ?_⟩, ⟨?_, ?_⟩, ⟨?_, ?_⟩, ⟨?_, ?_⟩⟩
  · intro h1
    simp [h1]
  · intro v h1 h2
    simp [h1, h2]
  · intro h1
    simp [h1]
  · intro h1
    simp [h1]
  · intro v h1 h2
    simp [h1, h2]
  · intro h1
    simp [h1]
  · intro h1
    simp [h1]
  · intro n h1
    simp [h1]
  · intro h1
    simp [h1]
  · intro n h1
    simp [h1]
  · intro h1
    simp [h1]
  · intro n h1
    simp [h1]

/-- C4 witness: concrete resolution over iot-default with a bandwidth
and a zero-latency override. -/
theorem C4_witness :
    (resolveParams (some "iot-default")
      { bandwidth_up := some "9mbit", latency_ms := some 0 }).bandwidth_up = "9mbit" ∧
    (resolveParams (some "iot-default")
      { bandwidth_up := some "9mbit", latency_ms := some 0 }).latency_ms = 0 ∧
    (resolveParams (some "iot-default")
      { bandwidth_up := some "9mbit", latency_ms := some 0 }).loss_pct = 0 := by
  have h := C4_override_precedence "iot-default"
    { name := "IoT Default"
      description := "Low bandwidth, tolerant latency — typical sensor data"
      bandwidth_down := "5mbit", bandwidth_up := "2mbit"
      latency_ms := 50, jitter_ms := 10, loss_pct := 0, priority := 3 }
    { bandwidth_up := some "9mbit", latency_ms := some 0 } (by decide)
  exact ⟨h.2.1.2.1 "9mbit" rfl (by decide), h.2.2.1.2 0 rfl, h.2.2.2.2.1 rfl⟩

/-- C4 counterexample: the supplied override set O = {bandwidth_down: ""}
is non-empty, yet the resolved bandwidth_down keeps the profile value
"5mbit" instead of O's value "" — the claim's "O's value for every field
in O" fails for a bandwidth field carrying the empty string. -/
theorem C4_counterexample :
    (resolveParams (some "iot-default")
      { bandwidth_down := some "" }).bandwidth_down = "5mbit" ∧
    ("5mbit" : String) ≠ "" := by
  refine ⟨rfl, by decide⟩

/-- C5: applying preset P then preset Q with no intervening clear leaves
the bottleneck link exactly as applying Q alone from any state — in
particular the unshaped one — because `apply_priority_rules` clears the
root discipline before configuring and ignores the prior link state.
Every object installed after the second apply is one of Q's commands (no
residual from P), and the only reachable link states are the unshaped []
and the Shaped(X) command set of a single preset X. -/
theorem C5_preset_reapply_implicit_clear :
    ∀ (okCmd : String → Bool) (ip1 ip2 : String) (P Q : String)
      (pP qP : Preset) (st st0 : ArbiterState),
      dictGet P PRIORITY_PRESETS = some pP →
      dictGet Q PRIORITY_PRESETS = some qP →
      ip1 ≠ "" → ip2 ≠ "" →
      ((apply_priority_rules okCmd ip1 ip2 Q
          (apply_priority_rules okCmd ip1 ip2 P st).2).2.edge =
        (apply_priority_rules okCmd ip1 ip2 Q st0).2.edge) ∧
      ((apply_priority_rules okCmd ip1 ip2 Q
          (apply_priority_rules okCmd ip1 ip2 P st).2).2.edge =
        (priorityCmds qP ip1 ip2).filter okCmd) ∧
      (∀ c ∈ (apply_priority_rules okCmd ip1 ip2 Q
          (apply_priority_rules okCmd ip1 ip2 P st).2).2.edge,
        c ∈ priorityCmds qP ip1 ip2) ∧
      (clear_priority_rules st).2.edge = [] := by
  intro okCmd ip1 ip2 P Q pP qP st st0 hP hQ h1 h2
  have happly : ∀ (pid : String) (pr : Preset) (s : ArbiterState),
      dictGet pid PRIORITY_PRESETS = some pr →
      (apply_priority_rules okCmd ip1 ip2 pid s).2.edge =
        (priorityCmds pr ip1 ip2).filter okCmd := by
    intro pid pr s hpr
    simp [apply_priority_rules, hpr, h1, h2, clear_priority_rules]
  refine ⟨?_, ?_, ?_, rfl⟩
  · rw [happly Q qP _ hQ, happly Q qP _ hQ]
  · exact happly Q qP _ hQ
  · intro c hc
    rw [happly Q qP _ hQ] at hc
    exact List.mem_of_mem_filter hc

/-- C5 witness: iot-first then equal, on an accepting device, ends in the
same link state as equal alone from the unshaped state. -/
theorem C5_witness :
    (apply_priority_rules (fun _ => true) "172.22.0.2" "172.22.0.3" "equal"
      (apply_priority_rules (fun _ => true) "172.22.0.2" "172.22.0.3" "iot-first"
        { edge := [], active := false }).2).2.edge =
    (apply_priority_rules (fun _ => true) "172.22.0.2" "172.22.0.3" "equal"
      { edge := [], active := false }).2.edge :=
  (C5_preset_reapply_implicit_clear (fun _ => true) "172.22.0.2" "172.22.0.3"
    "iot-first" "equal"
    { name := "IoT Priority (Default)"
      description := "IoT gets guaranteed bandwidth; Vehicle gets remainder"
      total_bw := "20mbit"
      iot_rate := "14mbit", iot_ceil := "18mbit", iot_prio := 1
      vehicle_rate := "4mbit", vehicle_ceil := "15mbit", vehicle_prio := 2 }
    { name := "Equal Share"
      description := "Both slices get equal bandwidth (baseline comparison)"
      total_bw := "20mbit"
      iot_rate := "10mbit", iot_ceil := "15mbit", iot_prio := 1
      vehicle_rate := "10mbit", vehicle_ceil := "15mbit", vehicle_prio := 1 }
    { edge := [], active := false } { edge := [], active := false }
    (by decide) (by decide) (by decide) (by decide)).1

/-- C6 (amended): the netem discipline on the egress uplink endpoint is
stacked below the HTB leaf iff the resolved latency or loss is non-zero.
A non-zero jitter alone does NOT install it: jitter is emitted only as a
sub-parameter of a positive delay. -/
theorem C6_netem_condition :
    ∀ (smap : SliceCfg) (p : TcParams),
      (netem_params p ≠ [] ↔ (0 < p.latency_ms ∨ 0 < p.loss_pct)) ∧
      (0 < p.latency_ms ∨ 0 < p.loss_pct →
        cmds_ue_ul smap p =
          [ "tc qdisc add dev " ++ smap.ue_iface ++ " root handle 1: htb default 10"
          , "tc class add dev " ++ smap.ue_iface ++ " parent 1: classid 1:10 htb rate "
              ++ p.bandwidth_up ++ " ceil " ++ p.bandwidth_up
          , netemCmd smap.ue_iface p ]) ∧
      (¬(0 < p.latency_ms ∨ 0 < p.loss_pct) →
        cmds_ue_ul smap p =
          [ "tc qdisc add dev " ++ smap.ue_iface ++ " root handle 1: htb default 10"
          , "tc class add dev " ++ smap.ue_iface ++ " parent 1: classid 1:10 htb rate "
              ++ p.bandwidth_up ++ " ceil " ++ p.bandwidth_up ]) := by
  intro smap p
  have hiff : netem_params p ≠ [] ↔ (0 < p.latency_ms ∨ 0 < p.loss_pct) := by
    by_cases hl : 0 < p.latency_ms <;> by_cases ho : 0 < p.loss_pct <;>
      simp [netem_params, hl, ho]
  refine ⟨hiff, ?_, ?_⟩
  · intro h
    have hne : netem_params p ≠ [] := hiff.mpr h
    simp [cmds_ue_ul, hne]
  · intro h
    have hniff : ¬ netem_params p ≠ [] := fun hc => h (hiff.mp hc)
    simp [cmds_ue_ul, hniff]

/-- C6 witness: latency 5 alone stacks the netem stage on slice1's uplink. -/
theorem C6_witness :
    cmds_ue_ul
      { upf := "upf1", upf_iface := "ogstun", subnet := "10.45.0.0/16"
        ue := "ue1", ue_iface := "eth0", ue_tun := "uesimtun0" }
      (resolveParams none { latency_ms := some 5 }) =
      [ "tc qdisc add dev eth0 root handle 1: htb default 10"
      , "tc class add dev eth0 parent 1: classid 1:10 htb rate 50mbit ceil 50mbit"
      , "tc qdisc add dev eth0 parent 1:10 handle 10: netem delay 5ms" ] := by
  have h := (C6_netem_condition
    { upf := "upf1", upf_iface := "ogstun", subnet := "10.45.0.0/16"
      ue := "ue1", ue_iface := "eth0", ue_tun := "uesimtun0" }
    (resolveParams none { latency_ms := some 5 })).2.1 (Or.inl (by decide))
  rw [h]
  rfl

/-- C6 counterexample: a resolved jitter of 5ms with zero latency and
zero loss leaves the uplink command list without any netem stage, against
the claim that non-zero jitter alone suffices. -/
theorem C6_counterexample :
    (resolveParams none { jitter_ms := some 5 }).jitter_ms = 5 ∧
    (resolveParams none { jitter_ms := some 5 }).latency_ms = 0 ∧
    (resolveParams none { jitter_ms := some 5 }).loss_pct = 0 ∧
    (dictGet "slice1" SLICE_MAP).map
      (fun smap => cmds_ue_ul smap (resolveParams none { jitter_ms := some 5 })) =
      some [ "tc qdisc add dev eth0 root handle 1: htb default 10"
           , "tc class add dev eth0 parent 1: classid 1:10 htb rate 50mbit ceil 50mbit" ] := by
  refine ⟨rfl, rfl, rfl, rfl⟩

/-- C7 (amended): with no profile id, resolution starts from the
hard-coded fixed defaults — zero latency, zero jitter, zero loss, and
finite bandwidth caps of 100mbit down / 50mbit up, NOT unrestricted
bandwidth. The caps are real restrictions: for every registered slice the
ingress policer at rate 100mbit and the HTB uplink class at rate 50mbit
are among the issued configure commands. They are, though, the most
permissive rates appearing in the profile catalog. -/
theorem C7_neutral_defaults :
    baseParams none = neutralDefaults ∧
    neutralDefaults.latency_ms = 0 ∧
    neutralDefaults.jitter_ms = 0 ∧
    neutralDefaults.loss_pct = 0 ∧
    neutralDefaults.bandwidth_down = "100mbit" ∧
    neutralDefaults.bandwidth_up = "50mbit" ∧
    (SLICE_MAP.all (fun pr =>
      (cmds_ue_dl pr.2 (resolveParams none noOverrides)).contains
        ("tc filter add dev " ++ pr.2.ue_iface
          ++ " parent ffff: protocol ip u32 match u32 0 0 police rate 100mbit burst 256k drop flowid :1") &&
      (cmds_ue_ul pr.2 (resolveParams none noOverrides)).contains
        ("tc class add dev " ++ pr.2.ue_iface
          ++ " parent 1: classid 1:10 htb rate 50mbit ceil 50mbit"))) = true ∧
    (QOS_PROFILES.all (fun pr =>
      rateLe pr.2.bandwidth_down neutralDefaults.bandwidth_down &&
      rateLe pr.2.bandwidth_up neutralDefaults.bandwidth_up)) = true := by
  refine ⟨rfl, rfl, rfl, rfl, rfl, rfl, by decide, by decide⟩

/-- C7 counterexample: the defaults are not "unrestricted bandwidth".
With no profile and no overrides, resolution yields the finite caps
100mbit down / 50mbit up, and apply on slice1 installs them as a real
ingress policer and a real HTB class among its issued commands; a
strictly more permissive rate expression (200mbit) exists, so the
default is a restriction, not the absence of one. -/
theorem C7_counterexample :
    (resolveParams none noOverrides).bandwidth_down = "100mbit" ∧
    (resolveParams none noOverrides).bandwidth_up = "50mbit" ∧
    ({ container := "ue1"
       cmd := "tc filter add dev eth0 parent ffff: protocol ip u32 match u32 0 0 police rate 100mbit burst 256k drop flowid :1" } : Call) ∈
      (apply_tc_rules okAllOracle errFixed "t" "slice1" none noOverrides []).2.2 ∧
    ({ container := "ue1"
       cmd := "tc class add dev eth0 parent 1: classid 1:10 htb rate 50mbit ceil 50mbit" } : Call) ∈
      (apply_tc_rules okAllOracle errFixed "t" "slice1" none noOverrides []).2.2 ∧
    rateKbit "100mbit" = some 100000 ∧
    rateKbit "200mbit" = some 200000 ∧
    (100000 : Nat) < 200000 := by
  refine ⟨rfl, rfl, by decide, by decide, by decide, by decide, by decide⟩

/-- C8: `clear` succeeds exactly on known slices — including when the
store holds nothing for the slice — and removes the slice's active rule;
an unknown slice yields an error, no calls, and an untouched store. The
source discards the outcomes of the four delete commands it issues, so
the reported success is independent of the devices by construction. -/
theorem C8_clear_semantics :
    (∀ (s : String) (smap : SliceCfg) (store : Store),
      dictGet s SLICE_MAP = some smap →
      (clear_tc_rules s store).1.success = true ∧
      (clear_tc_rules s store).1.error = none ∧
      (clear_tc_rules s store).2.1 = dictDel s store ∧
      dictGet s (clear_tc_rules s store).2.1 = none ∧
      (clear_tc_rules s store).2.2 = clearCalls smap) ∧
    (∀ (s : String) (store : Store),
      dictGet s SLICE_MAP = none →
      (clear_tc_rules s store).1.success = false ∧
      (clear_tc_rules s store).1.error = some ("Unknown slice: " ++ s) ∧
      (clear_tc_rules s store).2.1 = store ∧
      (clear_tc_rules s store).2.2 = []) := by
  constructor
  · intro s smap store h
    refine ⟨?_, ?_, ?_, ?_, ?_⟩ <;> simp [clear_tc_rules, h, dictGet_dictDel_self]
  · intro s store h
    refine ⟨?_, ?_, ?_, ?_⟩ <;> simp [clear_tc_rules, h]

/-- C8 witness: clearing slice1 over an empty store (nothing to remove)
succeeds; clearing an unknown slice fails. -/
theorem C8_witness :
    (clear_tc_rules "slice1" []).1.success = true ∧
    dictGet "slice1" (clear_tc_rules "slice1" []).2.1 = none ∧
    (clear_tc_rules "nope" []).1.success = false := by
  have h1 := C8_clear_semantics.1 "slice1"
    { upf := "upf1", upf_iface := "ogstun", subnet := "10.45.0.0/16"
      ue := "ue1", ue_iface := "eth0", ue_tun := "uesimtun0" } [] (by decide)
  have h2 := C8_clear_semantics.2 "nope" [] (by decide)
  exact ⟨h1.1, h1.2.2.2.1, h2.1⟩

/-- C9 (amended): in the hierarchy built from every cataloged preset,
each class — parent, IoT, Vehicle and the hard-coded default — has
ceiling ≥ guaranteed rate, and the parent class's rate and ceiling equal
the preset's total bandwidth. Class priorities within one preset are,
however, NOT always pairwise distinct. -/
theorem C9_preset_invariants :
    (PRIORITY_PRESETS.all (fun pr =>
      (presetClasses pr.2).all (fun c => rateLe c.rate c.ceil))) = true ∧
    (PRIORITY_PRESETS.all (fun pr =>
      match presetClasses pr.2 with
      | parent :: _ => parent.rate == pr.2.total_bw && parent.ceil == pr.2.total_bw
      | [] => false)) = true ∧
    ¬ (PRIORITY_PRESETS.all (fun pr =>
      match presetClasses pr.2 with
      | [_, a, b, d] => (a.prio != b.prio) && (a.prio != d.prio) && (b.prio != d.prio)
      | _ => false)) = true := by
  refine ⟨by decide, by decide, by decide⟩

/-- C9 counterexample: the "equal" preset assigns priority 1 to both
competing classes (and "emergency" gives the vehicle class and the
default class both priority 3), so within one preset the class
priorities CAN be equal. -/
theorem C9_counterexample :
    (dictGet "equal" PRIORITY_PRESETS).map (fun p => (p.iot_prio, p.vehicle_prio)) =
      some (1, 1) ∧
    (dictGet "emergency" PRIORITY_PRESETS).map (fun p => p.vehicle_prio) = some 3 := by
  refine ⟨rfl, rfl⟩

theorem foldl_sliceProfilesStep_unknown (l : List String) :
    ∀ (acc : List (String × String)),
      (∀ u ∈ l, dictGet u USE_CASE_QOS_MAP = none) →
      l.foldl sliceProfilesStep acc = acc := by
  induction l with
  | nil => intro acc _; rfl
  | cons u l ih =>
    intro acc hu
    rw [List.foldl_cons]
    rw [show sliceProfilesStep acc u = acc from by
      simp [sliceProfilesStep, hu u (List.mem_cons_self u l)]]
    exact ih acc (fun v hv => hu v (List.mem_cons_of_mem u hv))

/-- C10: `auto_configure_qos` silently skips use-case ids without a
binding — removing such an id anywhere in the input changes nothing —
and on an input whose ids are all unknown (including the empty list) it
applies nothing, issues no calls, leaves the store untouched, and still
reports overall success. -/
theorem C10_autoconfigure_skips_unknown :
    (∀ (u : String) (l1 l2 : List String), dictGet u USE_CASE_QOS_MAP = none →
      sliceProfiles (l1 ++ u :: l2) = sliceProfiles (l1 ++ l2)) ∧
    (∀ (ok : Oracle) (err : ErrOracle) (now : String) (l : List String) (store : Store),
      (l.all (fun u => (dictGet u USE_CASE_QOS_MAP).isNone)) = true →
      (auto_configure_qos ok err now l store).1.success = true ∧
      (auto_configure_qos ok err now l store).1.configured = [] ∧
      (auto_configure_qos ok err now l store).2.1 = store ∧
      (auto_configure_qos ok err now l store).2.2 = []) := by
  have hstep : ∀ (acc : List (String × String)) (u : String),
      dictGet u USE_CASE_QOS_MAP = none → sliceProfilesStep acc u = acc := by
    intro acc u h
    simp [sliceProfilesStep, h]
  constructor
  · intro u l1 l2 h
    simp only [sliceProfiles, List.foldl_append, List.foldl_cons]
    rw [hstep _ u h]
  · intro ok err now l store hall
    have hsp : sliceProfiles l = [] := by
      apply foldl_sliceProfilesStep_unknown
      intro u hu
      have := List.all_eq_true.mp hall u hu
      simpa [Option.isNone_iff_eq_none] using this
    refine ⟨?_, ?_, ?_, ?_⟩ <;>
      simp [auto_configure_qos, hsp, autoApplyLoop]

/-- C10 witness: an input of one unknown id applies nothing and succeeds. -/
theorem C10_witness :
    (auto_configure_qos okAllOracle errFixed "t" ["nope"] []).1.success = true ∧
    (auto_configure_qos okAllOracle errFixed "t" ["nope"] []).1.configured = [] ∧
    (auto_configure_qos okAllOracle errFixed "t" ["nope"] []).2.2 = [] ∧
    sliceProfiles ["iot-environment", "nope"] = sliceProfiles ["iot-environment"] := by
  have h1 := C10_autoconfigure_skips_unknown.2 okAllOracle errFixed "t" ["nope"] [] (by decide)
  have h2 := C10_autoconfigure_skips_unknown.1 "nope" ["iot-environment"] [] (by decide)
  exact ⟨h1.1, h1.2.1, h1.2.2.2, by simpa using h2⟩

/-- C2: conflict resolution in `auto_configure_qos`. (1) The
`slice_profiles` entry of a slice is the fold of the strict-minimum
selection over that slice's candidates in input order; (2) any selected
profile is a candidate whose priority is minimal, and it is the first
candidate attaining that minimum (everything before it is strictly
larger, everything after no smaller — first wins on exact ties); (3) the
engine invokes `apply_tc_rules` exactly once per slice: one configured
entry per `slice_profiles` entry, with pairwise-distinct slice keys;
(4) when candidate priorities tie only between identical profile ids
(no genuine tie), the selected profile of a slice is the same for every
permutation of the input list. -/
theorem C2_conflict_resolution :
    (∀ (l : List String) (s : String),
      dictGet s (sliceProfiles l) = selectMin (candidates l s)) ∧
    (∀ (l : List String) (s r : String),
      dictGet s (sliceProfiles l) = some r →
      (r ∈ candidates l s ∧ ∀ q ∈ candidates l s, profPrio r ≤ profPrio q) ∧
      ∃ l1 l2, candidates l s = l1 ++ r :: l2 ∧
        (∀ q ∈ l1, profPrio r < profPrio q) ∧
        (∀ q ∈ l2, profPrio r ≤ profPrio q)) ∧
    (∀ (ok : Oracle) (err : ErrOracle) (now : String) (l : List String) (store : Store),
      ((auto_configure_qos ok err now l store).1.configured.map Prod.fst) =
        (sliceProfiles l).map Prod.fst ∧
      ((auto_configure_qos ok err now l store).1.configured.map Prod.fst).Nodup) ∧
    (∀ (l1 l2 : List String) (s : String), l1.Perm l2 →
      (∀ a ∈ candidates l1 s, ∀ b ∈ candidates l1 s,
        profPrio a = profPrio b → a = b) →
      dictGet s (sliceProfiles l1) = dictGet s (sliceProfiles l2)) := by
  refine ⟨dictGet_sliceProfiles, ?_, ?_, ?_⟩
  · intro l s r h
    rw [dictGet_sliceProfiles] at h
    refine ⟨selectMin_mem_min _ r h, ?_⟩
    have hne : candidates l s ≠ [] := by
      intro hc
      rw [hc] at h
      exact absurd h (by simp [selectMin])
    obtain ⟨r', l1, l2, hf, hdec, hbefore, hafter⟩ := selectMin_decomp (candidates l s) hne
    have hrr : r' = r := Option.some.inj (hf.symm.trans h)
    subst hrr
    exact ⟨l1, l2, hdec, hbefore, hafter⟩
  · intro ok err now l store
    constructor
    · simpa [auto_configure_qos] using
        autoApplyLoop_keys ok err now (sliceProfiles l) store
    · rw [show ((auto_configure_qos ok err now l store).1.configured.map Prod.fst) =
          (sliceProfiles l).map Prod.fst from by
        simpa [auto_configure_qos] using
          autoApplyLoop_keys ok err now (sliceProfiles l) store]
      exact sliceProfiles_keys_nodup l
  · intro l1 l2 s hp ht
    rw [dictGet_sliceProfiles, dictGet_sliceProfiles]
    exact selectMin_perm _ _ (hp.filterMap _) ht

/-- C2 witness: vehicle-gps (priority 1) and vehicle-alerts (priority 0)
both target slice2; in either input order slice2 is configured with the
emergency profile. -/
theorem C2_witness :
    dictGet "slice2" (sliceProfiles ["vehicle-gps", "vehicle-alerts"]) = some "emergency" ∧
    dictGet "slice2" (sliceProfiles ["vehicle-alerts", "vehicle-gps"]) = some "emergency" := by
  have hperm : List.Perm ["vehicle-gps", "vehicle-alerts"] ["vehicle-alerts", "vehicle-gps"] :=
    List.Perm.swap "vehicle-alerts" "vehicle-gps" []
  have h := C2_conflict_resolution.2.2.2 ["vehicle-gps", "vehicle-alerts"]
    ["vehicle-alerts", "vehicle-gps"] "slice2" hperm (by decide)
  refine ⟨by decide, ?_⟩
  rw [← h]
  decide

end Transport
